import Mathlib

/-!
Verification development for the CH9329 USB-HID controller library
(`CH9329Controller.cpp` / `CH9329Controller.hpp`).

Shallow embedding conventions: bytes are `Nat` values below 256; byte
vectors are `List Nat`; a `static_cast<uint8_t>` of a wider value is
`% 256`; `std::optional` is `Option`.  Serial I/O is modelled by passing
the raw bytes the transport delivers for the single read each command
performs (`none` = transport-level error on write or read) as an explicit
argument, so every operation becomes a pure function of its arguments and
of that raw response.
-/

namespace CH9329

/-- Embeds `constexpr uint8_t FRAME_HEAD_1 = 0x57`. -/
def FRAME_HEAD_1 : Nat := 0x57

/-- Embeds `constexpr uint8_t FRAME_HEAD_2 = 0xAB`. -/
def FRAME_HEAD_2 : Nat := 0xAB

/-- Embeds `constexpr uint8_t DEVICE_ADDR = 0x00`. -/
def DEVICE_ADDR : Nat := 0x00

/-- Embeds `CH9329Controller::make_frame`: the header
`{FRAME_HEAD_1, FRAME_HEAD_2, addr, cmd, static_cast<uint8_t>(data.size())}`
followed by the payload, with the checksum byte appended.  The length byte
is the size truncated to `uint8_t` (`% 256`); the checksum is
`std::accumulate` over the whole frame in `int` arithmetic, truncated to
`uint8_t` on store (`% 256`). -/
def make_frame (addr cmd : Nat) (data : List Nat) : List Nat :=
  let frame := [FRAME_HEAD_1, FRAME_HEAD_2, addr, cmd, data.length % 256] ++ data
  frame ++ [frame.sum % 256]

/-- Embeds `CH9329Controller::validate_response`.  The checks appear in the
exact order of the source: minimum size, the two header bytes, the device
address, the low 6 bits of the command byte against the expected command,
the declared length against the actual size, and the checksum
(`accumulate` over all bytes but the last, truncated to `uint8_t`) against
the final byte.  On success it returns the bytes strictly between the
length byte and the checksum byte. -/
def validate_response (resp : List Nat) (expected_cmd : Nat) : Option (List Nat) :=
  if resp.length < 6 then none
  else if resp.getD 0 0 ≠ FRAME_HEAD_1 ∨ resp.getD 1 0 ≠ FRAME_HEAD_2 then none
  else if resp.getD 2 0 ≠ DEVICE_ADDR then none
  else if resp.getD 3 0 &&& 0x3F ≠ expected_cmd then none
  else if resp.length ≠ 6 + resp.getD 4 0 then none
  else if resp.getLast? ≠ some (resp.dropLast.sum % 256) then none
  else some ((resp.drop 5).dropLast)

/-- The structural validation failure kinds of the spec's taxonomy, one per
early `return std::nullopt` of `validate_response` (which itself collapses
them all into one empty optional). -/
inductive ProtocolError where
  | Truncated
  | BadHeader
  | BadAddress
  | CommandMismatch
  | LengthMismatch
  | ChecksumMismatch
deriving DecidableEq, Repr

/-- Diagnostic enrichment of `validate_response`: the identical checks in
the identical order, but recording which early return fired instead of
collapsing every failure to `none`.  Agreement with the source function is
proved in `validate_response_eq_diag`. -/
def validate_response_diag (resp : List Nat) (expected_cmd : Nat) :
    Except ProtocolError (List Nat) :=
  if resp.length < 6 then .error .Truncated
  else if resp.getD 0 0 ≠ FRAME_HEAD_1 ∨ resp.getD 1 0 ≠ FRAME_HEAD_2 then .error .BadHeader
  else if resp.getD 2 0 ≠ DEVICE_ADDR then .error .BadAddress
  else if resp.getD 3 0 &&& 0x3F ≠ expected_cmd then .error .CommandMismatch
  else if resp.length ≠ 6 + resp.getD 4 0 then .error .LengthMismatch
  else if resp.getLast? ≠ some (resp.dropLast.sum % 256) then .error .ChecksumMismatch
  else .ok ((resp.drop 5).dropLast)

theorem validate_response_eq_diag (resp : List Nat) (expected_cmd : Nat) :
    validate_response resp expected_cmd = (validate_response_diag resp expected_cmd).toOption := by
  unfold validate_response validate_response_diag
  repeat' split
  all_goals rfl

/-- `C2` (counterexample): the claim's concrete example is arithmetically
wrong — for address `0x00`, command `0x01`, empty payload the checksum is
`(0x57 + 0xAB + 0x00 + 0x01 + 0x00) % 256 = 0x103 % 256 = 0x03`, not
`0x58`, so the emitted frame is not `[0x57, 0xAB, 0x00, 0x01, 0x00, 0x58]`. -/
theorem make_frame_get_info_not_0x58 :
    make_frame 0 1 [] ≠ [0x57, 0xAB, 0x00, 0x01, 0x00, 0x58] := by decide

/-- `C2` (amended): `make_frame` emits `[0x57, 0xAB, address, command,
payload-length-byte]` (the length byte being the payload size mod 256)
followed by the payload followed by one checksum byte equal to the mod-256
sum of all preceding bytes; in particular for address `0x00`, command
`0x01` and empty payload it emits exactly
`[0x57, 0xAB, 0x00, 0x01, 0x00, 0x03]` (checksum `0x103 % 256 = 0x03`). -/
theorem make_frame_layout (addr cmd : Nat) (data : List Nat) :
    make_frame addr cmd data =
      [0x57, 0xAB, addr, cmd, data.length % 256] ++ data ++
        [(0x57 + 0xAB + addr + cmd + data.length % 256 + data.sum) % 256] ∧
    make_frame 0 1 [] = [0x57, 0xAB, 0x00, 0x01, 0x00, 0x03] := by
  constructor
  · simp only [make_frame, FRAME_HEAD_1, FRAME_HEAD_2, List.append_assoc,
      List.sum_append]
    simp [List.sum_cons]
    ring_nf
  · decide

/-- `C1`: for every payload of length at most 249, address equal to
`DEVICE_ADDR` and command byte whose low 6 bits equal itself, validating
the frame built by `make_frame` against that command returns exactly the
original payload. -/
theorem validate_make_frame_roundtrip (cmd : Nat) (payload : List Nat)
    (hcmd : cmd &&& 0x3F = cmd) (hlen : payload.length ≤ 249) :
    validate_response (make_frame DEVICE_ADDR cmd payload) cmd = some payload := by
  have hmod : payload.length % 256 = payload.length := Nat.mod_eq_of_lt (by omega)
  have hframe : make_frame DEVICE_ADDR cmd payload =
      ([FRAME_HEAD_1, FRAME_HEAD_2, DEVICE_ADDR, cmd, payload.length] ++ payload) ++
        [(([FRAME_HEAD_1, FRAME_HEAD_2, DEVICE_ADDR, cmd, payload.length] ++ payload).sum % 256)] := by
    simp only [make_frame, hmod]
  rw [hframe]
  set A := [FRAME_HEAD_1, FRAME_HEAD_2, DEVICE_ADDR, cmd, payload.length] ++ payload with hA
  have hAlen : A.length = 5 + payload.length := by
    simp [hA]
    omega
  have hlen' : (A ++ [A.sum % 256]).length = 6 + payload.length := by
    simp [hAlen]
    omega
  unfold validate_response
  rw [if_neg (by omega)]
  rw [List.getD_append A _ 0 0 (by omega), List.getD_append A _ 0 1 (by omega),
    List.getD_append A _ 0 2 (by omega), List.getD_append A _ 0 3 (by omega),
    List.getD_append A _ 0 4 (by omega)]
  have h0 : A.getD 0 0 = FRAME_HEAD_1 := by simp [hA]
  have h1 : A.getD 1 0 = FRAME_HEAD_2 := by simp [hA]
  have h2 : A.getD 2 0 = DEVICE_ADDR := by simp [hA]
  have h3 : A.getD 3 0 = cmd := by simp [hA]
  have h4 : A.getD 4 0 = payload.length := by simp [hA]
  rw [h0, h1, h2, h3, h4]
  rw [if_neg (by simp)]
  rw [if_neg (by simp)]
  rw [if_neg (by simpa using hcmd)]
  rw [if_neg (by omega)]
  rw [List.getLast?_concat, List.dropLast_concat]
  rw [if_neg (by simp)]
  have hdrop : ((A ++ [A.sum % 256]).drop 5).dropLast = payload := by
    rw [hA, List.append_assoc]
    have : ([FRAME_HEAD_1, FRAME_HEAD_2, DEVICE_ADDR, cmd, payload.length] : List Nat).length = 5 := by
      rfl
    rw [← this, List.drop_left]
    exact List.dropLast_concat
  rw [hdrop]

theorem validate_make_frame_roundtrip_witness :
    validate_response (make_frame DEVICE_ADDR 0x01 [0xAA, 0xBB]) 0x01 = some [0xAA, 0xBB] :=
  validate_make_frame_roundtrip 0x01 [0xAA, 0xBB] (by decide) (by decide)

/-- Embeds `CH9329Controller::read_response`: `raw` is the byte sequence the
single `read_some` call delivers into its 128-byte buffer (`none` models a
transport error); fewer than 6 bytes is rejected, otherwise the buffer is
resized to the bytes actually read and returned. -/
def read_response (raw : Option (List Nat)) : Option (List Nat) :=
  match raw with
  | none => none
  | some buf => if buf.length < 6 then none else some buf

/-- Embeds `CH9329Controller::send_command`: builds the frame for
`DEVICE_ADDR`, writes it, sleeps 10 ms, reads one response, validates it
against the sent command, and treats a structurally valid but empty
payload as failure.  A transport write error is folded into `raw = none`
(the source returns `nullopt` for it before ever reading). -/
def send_command (cmd : Nat) (data : List Nat) (raw : Option (List Nat)) :
    Option (List Nat) :=
  match read_response raw with
  | none => none
  | some resp =>
    match validate_response resp cmd with
    | none => none
    | some payload => if payload = [] then none else some payload

/-- The frames one `send_command` call writes to the serial port: exactly
the single frame built by `make_frame` with the fixed device address
(`asio::write(port_, asio::buffer(frame), ec)`). -/
def send_command_writes (cmd : Nat) (data : List Nat) : List (List Nat) :=
  [make_frame DEVICE_ADDR cmd data]

/-- Mirrors the success predicate repeated verbatim at every mutating call
site of the source: `r.has_value() && !r->empty() && r->at(0) == 0x00`
(`static_cast<uint8_t>(CommandStatus::Success)` is the same `0x00`). -/
def cmd_success : Option (List Nat) → Bool
  | some (b :: _) => b == 0
  | some [] => false
  | none => false

theorem cmd_success_iff (r : Option (List Nat)) :
    cmd_success r = true ↔ ∃ rest, r = some (0 :: rest) := by
  cases r with
  | none => simp [cmd_success]
  | some p =>
    cases p with
    | nil => simp [cmd_success]
    | cons b rest =>
      simp only [cmd_success, beq_iff_eq, Option.some.injEq, List.cons.injEq]
      constructor
      · intro h
        exact ⟨rest, h, rfl⟩
      · rintro ⟨r', h1, h2⟩
        exact h1

/-- Embeds `struct DeviceInfo`. -/
structure DeviceInfo where
  version_major : Nat
  version_minor : Nat
  usb_connected : Bool
  num_lock : Bool
  caps_lock : Bool
  scroll_lock : Bool
  pc_sleeping : Bool
deriving DecidableEq, Repr

/-- Embeds `CH9329Controller::get_info` (opcode `0x01`, empty payload).
`version_major` transcribes the source line
`info.version_major = (version >> 4) & 0x0F - 2;` with C++ precedence: the
subtraction binds to the literal, giving `(version >> 4) & (0x0F - 2)`. -/
def get_info (raw : Option (List Nat)) : Option DeviceInfo :=
  match send_command 0x01 [] raw with
  | none => none
  | some response =>
    if response.length < 8 then none
    else
      let version := response.getD 0 0
      let led_status := response.getD 2 0
      some {
        version_major := (version >>> 4) &&& (0x0F - 2)
        version_minor := version &&& 0x0F
        usb_connected := response.getD 1 0 == 0x01
        num_lock := led_status &&& 0x01 != 0
        caps_lock := led_status &&& 0x02 != 0
        scroll_lock := led_status &&& 0x04 != 0
        pc_sleeping := response.getD 3 0 == 0x03 }

/-- Embeds `enum class MouseButton`. -/
inductive MouseButton where
  | NoButton
  | LeftButton
  | RightButton
  | MiddleButton
deriving DecidableEq, Repr

/-- Embeds `pack_mouse_button`: `static_cast<uint8_t>(b)` of the enum
values `None = 0x00`, `Left = 0x01`, `Right = 0x02`, `Middle = 0x04`. -/
def pack_mouse_button : MouseButton → Nat
  | .NoButton => 0x00
  | .LeftButton => 0x01
  | .RightButton => 0x02
  | .MiddleButton => 0x04

/-- Models `static_cast<uint8_t>` of an `int8_t` argument: the two's
complement byte, i.e. the euclidean remainder mod 256. -/
def int8_byte (w : Int) : Nat := (w % 256).toNat

/-- Payload built by `send_kb_general_data` (opcode `0x02`): an 8-byte zero
vector with byte 0 set to the packed control key, byte 1 left `0x00`, and
the 6 key codes copied starting at byte 2.  `keys` stands for the
`std::array<uint8_t, 6>`, so it has length 6 at every call. -/
def kb_general_payload (ctrl : Nat) (keys : List Nat) : List Nat :=
  [ctrl, 0x00] ++ keys

/-- Payload built by `send_kb_media_data` (opcode `0x03`): report id, then
the 16-bit keycode in little-endian order. -/
def kb_media_payload (report_id keycode : Nat) : List Nat :=
  [report_id, keycode &&& 0xFF, (keycode >>> 8) &&& 0xFF]

/-- Payload built by `send_ms_abs_data` (opcode `0x04`), transcribing lines
128–135 of the source: report id `0x02`, packed button, X and Y as
little-endian 16-bit values taken directly from the `uint16_t` arguments
(no clamping appears in this function), then the wheel byte. -/
def send_ms_abs_payload (button : MouseButton) (x y : Nat) (wheel : Int) : List Nat :=
  [0x02, pack_mouse_button button,
   x &&& 0xFF, (x >>> 8) &&& 0xFF,
   y &&& 0xFF, (y >>> 8) &&& 0xFF,
   int8_byte wheel]

/-- Payload built by `send_ms_rel_data` (opcode `0x05`): report id `0x01`,
packed button, signed X/Y deltas and wheel as bytes. -/
def send_ms_rel_payload (button : MouseButton) (x_delta y_delta wheel : Int) : List Nat :=
  [0x01, pack_mouse_button button, int8_byte x_delta, int8_byte y_delta, int8_byte wheel]

/-- Payload built by `set_usb_string` (opcode `0x0B`):
`[type, static_cast<uint8_t>(str.size()), text bytes...]`. -/
def set_usb_string_payload (type_tag : Nat) (str : List Nat) : List Nat :=
  type_tag :: (str.length % 256) :: str

/-- Embeds `CH9329Controller::send_kb_general_data`. -/
def send_kb_general_data (ctrl : Nat) (keys : List Nat) (raw : Option (List Nat)) : Bool :=
  cmd_success (send_command 0x02 (kb_general_payload ctrl keys) raw)

/-- Embeds `CH9329Controller::send_kb_media_data`. -/
def send_kb_media_data (report_id keycode : Nat) (raw : Option (List Nat)) : Bool :=
  cmd_success (send_command 0x03 (kb_media_payload report_id keycode) raw)

/-- Embeds `CH9329Controller::send_ms_abs_data`. -/
def send_ms_abs_data (button : MouseButton) (x y : Nat) (wheel : Int)
    (raw : Option (List Nat)) : Bool :=
  cmd_success (send_command 0x04 (send_ms_abs_payload button x y wheel) raw)

/-- Embeds `CH9329Controller::send_ms_rel_data`. -/
def send_ms_rel_data (button : MouseButton) (x_delta y_delta wheel : Int)
    (raw : Option (List Nat)) : Bool :=
  cmd_success (send_command 0x05 (send_ms_rel_payload button x_delta y_delta wheel) raw)

/-- Embeds `CH9329Controller::send_hid_data` (opcode `0x06`): a payload
longer than 64 bytes is rejected locally before `send_command` is reached;
otherwise the data is passed through verbatim. -/
def send_hid_data (data : List Nat) (raw : Option (List Nat)) : Bool :=
  if data.length > 64 then false
  else cmd_success (send_command 0x06 data raw)

/-- Frames `send_hid_data` writes to the transport: none when the local
length guard fires (the source returns `false` before calling
`send_command`), otherwise the single frame `send_command` writes. -/
def send_hid_data_writes (data : List Nat) : List (List Nat) :=
  if data.length > 64 then [] else send_command_writes 0x06 data

/-- Embeds `CH9329Controller::set_usb_string`. -/
def set_usb_string (type_tag : Nat) (str : List Nat) (raw : Option (List Nat)) : Bool :=
  cmd_success (send_command 0x0B (set_usb_string_payload type_tag str) raw)

/-- Embeds `CH9329Controller::set_para_config`: transmits the 50 raw
configuration bytes verbatim (opcode `0x09`). -/
def set_para_config (raw_bytes : List Nat) (raw : Option (List Nat)) : Bool :=
  cmd_success (send_command 0x09 raw_bytes raw)

/-- Embeds `CH9329Controller::set_default_config` (opcode `0x0C`, no payload). -/
def set_default_config (raw : Option (List Nat)) : Bool :=
  cmd_success (send_command 0x0C [] raw)

/-- Embeds `CH9329Controller::reset` (opcode `0x0F`, no payload). -/
def reset (raw : Option (List Nat)) : Bool :=
  cmd_success (send_command 0x0F [] raw)

/-- Embeds `CH9329Controller::mouse_up`: the payload is the literal
`{0x01, 0x00, 0x00, 0x00, 0x00}` ("Release all buttons"); the `button`
argument is never read. -/
def mouse_up (button : MouseButton) (raw : Option (List Nat)) : Bool :=
  cmd_success (send_command 0x05 [0x01, 0x00, 0x00, 0x00, 0x00] raw)

/-- Frames `mouse_up` writes to the transport. -/
def mouse_up_writes (button : MouseButton) : List (List Nat) :=
  send_command_writes 0x05 [0x01, 0x00, 0x00, 0x00, 0x00]

/-- `C8`: `send_command` never hands an empty payload to its caller, and a
response that passes structural validation with an empty payload is
treated as failure (`none`). -/
theorem send_command_rejects_empty (cmd : Nat) (data : List Nat) (raw : Option (List Nat)) :
    (∀ p, send_command cmd data raw = some p → p ≠ []) ∧
    (∀ resp, read_response raw = some resp → validate_response resp cmd = some [] →
      send_command cmd data raw = none) := by
  constructor
  · intro p hp hpe
    subst hpe
    unfold send_command at hp
    split at hp
    · exact Option.noConfusion hp
    · split at hp
      · exact Option.noConfusion hp
      · split at hp <;> simp_all
  · intro resp hr hv
    unfold send_command
    rw [hr]
    simp [hv]

theorem send_command_rejects_empty_witness :
    send_command 0x01 [] (some (make_frame DEVICE_ADDR 0x01 [])) = none :=
  (send_command_rejects_empty 0x01 [] (some (make_frame DEVICE_ADDR 0x01 []))).2
    (make_frame DEVICE_ADDR 0x01 []) (by decide) (by decide)

/-- `C4`: when the validated device-info payload has at least 8 bytes,
`get_info` decodes `version_major` as `(byte0 >> 4) & (0x0F - 2)` (the
source's literal operator precedence), `version_minor` as byte 0's low
nibble, `usb_connected` iff byte 1 equals `0x01`, the num/caps/scroll lock
flags from bits 0/1/2 of byte 2, and `pc_sleeping` iff byte 3 equals
`0x03`; a validated payload shorter than 8 bytes makes `get_info` fail. -/
theorem get_info_decode (raw : Option (List Nat)) (p : List Nat)
    (h : send_command 0x01 [] raw = some p) :
    (8 ≤ p.length → get_info raw = some {
        version_major := (p.getD 0 0 >>> 4) &&& (0x0F - 2)
        version_minor := p.getD 0 0 &&& 0x0F
        usb_connected := p.getD 1 0 == 0x01
        num_lock := p.getD 2 0 &&& 0x01 != 0
        caps_lock := p.getD 2 0 &&& 0x02 != 0
        scroll_lock := p.getD 2 0 &&& 0x04 != 0
        pc_sleeping := p.getD 3 0 == 0x03 }) ∧
    (p.length < 8 → get_info raw = none) := by
  unfold get_info
  rw [h]
  dsimp only
  constructor
  · intro hlen
    rw [if_neg (by omega)]
  · intro hlen
    rw [if_pos (by omega)]

theorem get_info_decode_witness :
    get_info (some (make_frame DEVICE_ADDR 0x01 [0x12, 0x01, 0x07, 0x03, 0, 0, 0, 0])) =
      some { version_major := 1, version_minor := 2, usb_connected := true,
             num_lock := true, caps_lock := true, scroll_lock := true,
             pc_sleeping := true } := by
  have h := (get_info_decode (some (make_frame DEVICE_ADDR 0x01 [0x12, 0x01, 0x07, 0x03, 0, 0, 0, 0]))
      [0x12, 0x01, 0x07, 0x03, 0, 0, 0, 0] (by decide)).1 (by decide)
  rw [h]
  decide

/-- `C7`: every mutating command of the catalog — keyboard report, media
key, absolute and relative mouse report, custom HID, set USB string, set
parameter block, restore defaults, software reset — returns success iff
the round-trip through `send_command` with its opcode and payload
succeeded and the returned payload starts with the success status byte
`0x00`; any other first byte (in particular `0xE1`–`0xE6`) yields `false`
with no further distinction. -/
theorem mutating_commands_success_iff (raw : Option (List Nat))
    (ctrl report_id keycode type_tag : Nat)
    (keys str cfg hid : List Nat)
    (btn rbtn : MouseButton) (x y : Nat)
    (wheel dx dy rwheel : Int)
    (hhid : hid.length ≤ 64) :
    (send_kb_general_data ctrl keys raw = true ↔
      ∃ rest, send_command 0x02 (kb_general_payload ctrl keys) raw = some (0 :: rest)) ∧
    (send_kb_media_data report_id keycode raw = true ↔
      ∃ rest, send_command 0x03 (kb_media_payload report_id keycode) raw = some (0 :: rest)) ∧
    (send_ms_abs_data btn x y wheel raw = true ↔
      ∃ rest, send_command 0x04 (send_ms_abs_payload btn x y wheel) raw = some (0 :: rest)) ∧
    (send_ms_rel_data rbtn dx dy rwheel raw = true ↔
      ∃ rest, send_command 0x05 (send_ms_rel_payload rbtn dx dy rwheel) raw = some (0 :: rest)) ∧
    (send_hid_data hid raw = true ↔
      ∃ rest, send_command 0x06 hid raw = some (0 :: rest)) ∧
    (set_usb_string type_tag str raw = true ↔
      ∃ rest, send_command 0x0B (set_usb_string_payload type_tag str) raw = some (0 :: rest)) ∧
    (set_para_config cfg raw = true ↔
      ∃ rest, send_command 0x09 cfg raw = some (0 :: rest)) ∧
    (set_default_config raw = true ↔
      ∃ rest, send_command 0x0C [] raw = some (0 :: rest)) ∧
    (reset raw = true ↔
      ∃ rest, send_command 0x0F [] raw = some (0 :: rest)) := by
  refine ⟨cmd_success_iff _, cmd_success_iff _, cmd_success_iff _, cmd_success_iff _,
    ?_, cmd_success_iff _, cmd_success_iff _, cmd_success_iff _, cmd_success_iff _⟩
  unfold send_hid_data
  rw [if_neg (by omega)]
  exact cmd_success_iff _

theorem mutating_commands_success_iff_witness :
    reset (some (make_frame DEVICE_ADDR 0x0F [0x00])) = true ↔
      ∃ rest, send_command 0x0F [] (some (make_frame DEVICE_ADDR 0x0F [0x00])) =
        some (0 :: rest) :=
  (mutating_commands_success_iff (some (make_frame DEVICE_ADDR 0x0F [0x00]))
    0 0 0 0 [] [] [] [] .NoButton .NoButton 0 0 0 0 0 0 (by decide)).2.2.2.2.2.2.2.2

/-- `C9`: `send_hid_data` with more than 64 bytes of data fails locally —
it returns `false` and writes nothing to the transport, for every possible
transport behaviour; with at most 64 bytes the payload is passed through
verbatim inside the single frame written. -/
theorem send_hid_data_length_guard (data : List Nat) (raw : Option (List Nat)) :
    (64 < data.length →
      send_hid_data data raw = false ∧ send_hid_data_writes data = []) ∧
    (data.length ≤ 64 →
      send_hid_data_writes data = [make_frame DEVICE_ADDR 0x06 data]) := by
  constructor
  · intro h
    constructor
    · unfold send_hid_data
      rw [if_pos (by omega)]
    · unfold send_hid_data_writes
      rw [if_pos (by omega)]
  · intro h
    unfold send_hid_data_writes
    rw [if_neg (by omega)]
    rfl

theorem send_hid_data_length_guard_witness :
    (send_hid_data (List.replicate 65 0) none = false ∧
      send_hid_data_writes (List.replicate 65 0) = []) ∧
    send_hid_data_writes [0x42] = [make_frame DEVICE_ADDR 0x06 [0x42]] :=
  ⟨(send_hid_data_length_guard (List.replicate 65 0) none).1 (by decide),
   (send_hid_data_length_guard [0x42] none).2 (by decide)⟩

/-- `C10`: `mouse_up` ignores its button argument — any two button values
produce the same result and the same single frame on the wire, whose
payload is the all-buttons-released relative report
`[0x01, 0x00, 0x00, 0x00, 0x00]`. -/
theorem mouse_up_ignores_button (b1 b2 : MouseButton) (raw : Option (List Nat)) :
    mouse_up b1 raw = mouse_up b2 raw ∧
    mouse_up_writes b1 = mouse_up_writes b2 ∧
    mouse_up_writes b1 = [make_frame DEVICE_ADDR 0x05 [0x01, 0x00, 0x00, 0x00, 0x00]] ∧
    mouse_up_writes b1 =
      [[0x57, 0xAB, 0x00, 0x05, 0x05, 0x01, 0x00, 0x00, 0x00, 0x00, 0x0D]] :=
  ⟨rfl, rfl, rfl, by unfold mouse_up_writes send_command_writes; decide⟩

theorem getD_set_self (l : List Nat) (i b : Nat) (h : i < l.length) :
    (l.set i b).getD i 0 = b := by
  rw [List.getD_eq_getElem?_getD, List.getElem?_set]
  simp [h]

theorem getD_set_other (l : List Nat) (i j b : Nat) (h : i ≠ j) :
    (l.set i b).getD j 0 = l.getD j 0 := by
  rw [List.getD_eq_getElem?_getD, List.getElem?_set, if_neg h, ← List.getD_eq_getElem?_getD]

theorem set_append_left (l1 l2 : List Nat) (i b : Nat) (h : i < l1.length) :
    (l1 ++ l2).set i b = l1.set i b ++ l2 := by
  rw [List.set_append]
  simp [h]

theorem sum_set_add (l : List Nat) (i b : Nat) (h : i < l.length) :
    (l.set i b).sum + l.getD i 0 = l.sum + b := by
  induction l generalizing i with
  | nil => simp at h
  | cons a t ih =>
    cases i with
    | zero =>
      simp only [List.set_cons_zero, List.sum_cons, List.getD_cons_zero]
      omega
    | succ n =>
      have hn : n < t.length := by simpa using h
      have hrec := ih n hn
      simp only [List.set_cons_succ, List.sum_cons, List.getD_cons_succ]
      omega

theorem sum_set_mod_ne (l : List Nat) (i b : Nat) (hi : i < l.length) (hb : b < 256)
    (hold : l.getD i 0 < 256) (hne : b ≠ l.getD i 0) :
    (l.set i b).sum % 256 ≠ l.sum % 256 := by
  have hkey := sum_set_add l i b hi
  omega

/-- Maps the position of a mutated byte (and the mutated value, for the
command byte) to the spec's error kind for the source check that rejects
the frame: header bytes trip the header check, the address byte the
address check, a command-byte mutation that changes the low 6 bits the
command check, one that changes only the top two bits slips through to the
checksum check, the length byte trips the length check, and a payload byte
the checksum check. -/
def mutated_field_error (i b cmd : Nat) : ProtocolError :=
  if i ≤ 1 then .BadHeader
  else if i = 2 then .BadAddress
  else if i = 3 then (if b &&& 0x3F ≠ cmd then .CommandMismatch else .ChecksumMismatch)
  else if i = 4 then .LengthMismatch
  else .ChecksumMismatch

/-- `C3` (amended): mutating any single non-checksum byte of a
validly-built frame makes `validate_response` reject it — but with the
single undifferentiated empty result the source returns for every
failure; the check that fires, recorded by the diagnostic enrichment
`validate_response_diag` of the same check sequence, is the one
corresponding to the mutated field as given by `mutated_field_error`. -/
theorem validate_rejects_mutation (cmd : Nat) (payload : List Nat) (i b : Nat)
    (hcmd : cmd &&& 0x3F = cmd) (hlen : payload.length ≤ 249)
    (hbytes : ∀ a ∈ payload, a < 256) (hb : b < 256)
    (hi : i < 5 + payload.length)
    (hne : b ≠ (make_frame DEVICE_ADDR cmd payload).getD i 0) :
    validate_response ((make_frame DEVICE_ADDR cmd payload).set i b) cmd = none ∧
    validate_response_diag ((make_frame DEVICE_ADDR cmd payload).set i b) cmd =
      Except.error (mutated_field_error i b cmd) := by
  have hcmdlt : cmd < 64 := by
    have h64 := Nat.and_pow_two_sub_one_eq_mod cmd 6
    norm_num at h64
    omega
  have hmod : payload.length % 256 = payload.length := Nat.mod_eq_of_lt (by omega)
  have hframe : make_frame DEVICE_ADDR cmd payload =
      ([FRAME_HEAD_1, FRAME_HEAD_2, DEVICE_ADDR, cmd, payload.length] ++ payload) ++
        [(([FRAME_HEAD_1, FRAME_HEAD_2, DEVICE_ADDR, cmd, payload.length] ++ payload).sum % 256)] := by
    simp only [make_frame, hmod]
  set L := payload.length with hLdef
  set A := [FRAME_HEAD_1, FRAME_HEAD_2, DEVICE_ADDR, cmd, L] ++ payload with hA
  set S := A.sum % 256 with hS
  have hAlen : A.length = 5 + L := by
    simp [hA]
    omega
  have hset : (make_frame DEVICE_ADDR cmd payload).set i b = A.set i b ++ [S] := by
    rw [hframe, set_append_left _ _ _ _ (by omega)]
  have hsetlen : (A.set i b).length = 5 + L := by rw [List.length_set, hAlen]
  have hA0 : A.getD 0 0 = FRAME_HEAD_1 := by simp [hA]
  have hA1 : A.getD 1 0 = FRAME_HEAD_2 := by simp [hA]
  have hA2 : A.getD 2 0 = DEVICE_ADDR := by simp [hA]
  have hA3 : A.getD 3 0 = cmd := by simp [hA]
  have hA4 : A.getD 4 0 = L := by simp [hA]
  have hgetD : (make_frame DEVICE_ADDR cmd payload).getD i 0 = A.getD i 0 := by
    rw [hframe, List.getD_append _ _ _ _ (by omega)]
  rw [hgetD] at hne
  have hold : A.getD i 0 < 256 := by
    rcases Nat.lt_or_ge i 5 with h5 | h5
    · interval_cases i <;>
        simp only [hA0, hA1, hA2, hA3, hA4, FRAME_HEAD_1, FRAME_HEAD_2, DEVICE_ADDR] <;>
        omega
    · have hj : i - 5 < payload.length := by omega
      have hexpr : A.getD i 0 = payload.getD (i - 5) 0 := by
        rw [hA, List.getD_append_right _ _ _ _ (by simpa using h5)]
        simp
      rw [hexpr, List.getD_eq_getElem payload 0 hj]
      exact hbytes _ (List.getElem_mem hj)
  -- generic facts about the mutated frame
  have hflen : (A.set i b ++ [S]).length = 6 + L := by
    simp [hsetlen]
    omega
  have hlast : (A.set i b ++ [S]).getLast? = some S := List.getLast?_concat _
  have hdrop : (A.set i b ++ [S]).dropLast = A.set i b := List.dropLast_concat
  have hg : ∀ j, j < 5 → (A.set i b ++ [S]).getD j 0 = (A.set i b).getD j 0 := by
    intro j hj
    exact List.getD_append _ _ _ _ (by omega)
  have hgne : ∀ j, j < 5 → i ≠ j → (A.set i b ++ [S]).getD j 0 = A.getD j 0 := by
    intro j hj hij
    rw [hg j hj, getD_set_other _ _ _ _ hij]
  have hgeq : i < 5 → (A.set i b ++ [S]).getD i 0 = b := by
    intro h5
    rw [hg i h5, getD_set_self _ _ _ (by omega)]
  have hnotlt : ¬ ((A.set i b ++ [S]).length < 6) := by omega
  rw [hset]
  have hdiag : validate_response_diag (A.set i b ++ [S]) cmd =
      Except.error (mutated_field_error i b cmd) := by
    rcases Nat.lt_or_ge i 5 with h5 | h5
    · interval_cases i
      · -- first header byte
        have hb0 : (A.set 0 b ++ [S]).getD 0 0 = b := hgeq (by omega)
        unfold validate_response_diag
        rw [if_neg hnotlt, if_pos (Or.inl (by rw [hb0, ← hA0]; exact hne))]
        rfl
      · -- second header byte
        have hb1 : (A.set 1 b ++ [S]).getD 1 0 = b := hgeq (by omega)
        have hb0 : (A.set 1 b ++ [S]).getD 0 0 = A.getD 0 0 := hgne 0 (by omega) (by omega)
        unfold validate_response_diag
        rw [if_neg hnotlt, if_pos (Or.inr (by rw [hb1, ← hA1]; exact hne))]
        rfl
      · -- address byte
        have hb2 : (A.set 2 b ++ [S]).getD 2 0 = b := hgeq (by omega)
        have hb0 : (A.set 2 b ++ [S]).getD 0 0 = A.getD 0 0 := hgne 0 (by omega) (by omega)
        have hb1 : (A.set 2 b ++ [S]).getD 1 0 = A.getD 1 0 := hgne 1 (by omega) (by omega)
        unfold validate_response_diag
        rw [if_neg hnotlt, if_neg (by rw [hb0, hb1, hA0, hA1]; simp),
          if_pos (by rw [hb2, ← hA2]; exact hne)]
        rfl
      · -- command byte
        have hb3 : (A.set 3 b ++ [S]).getD 3 0 = b := hgeq (by omega)
        have hb0 : (A.set 3 b ++ [S]).getD 0 0 = A.getD 0 0 := hgne 0 (by omega) (by omega)
        have hb1 : (A.set 3 b ++ [S]).getD 1 0 = A.getD 1 0 := hgne 1 (by omega) (by omega)
        have hb2 : (A.set 3 b ++ [S]).getD 2 0 = A.getD 2 0 := hgne 2 (by omega) (by omega)
        have hb4 : (A.set 3 b ++ [S]).getD 4 0 = A.getD 4 0 := hgne 4 (by omega) (by omega)
        by_cases hlow : b &&& 0x3F ≠ cmd
        · unfold validate_response_diag
          rw [if_neg hnotlt, if_neg (by rw [hb0, hb1, hA0, hA1]; simp),
            if_neg (by rw [hb2, hA2]; simp), if_pos (by rw [hb3]; exact hlow)]
          unfold mutated_field_error
          rw [if_neg (by omega), if_neg (by omega), if_pos rfl, if_pos hlow]
        · push_neg at hlow
          have hcksum : S ≠ (A.set 3 b).sum % 256 := by
            have := sum_set_mod_ne A 3 b (by omega) hb (by rw [hA3]; omega)
              (by rw [hA3]; rw [hA3] at hne; exact hne)
            rw [hS]
            exact fun hcontra => this hcontra.symm
          unfold validate_response_diag
          rw [if_neg hnotlt, if_neg (by rw [hb0, hb1, hA0, hA1]; simp),
            if_neg (by rw [hb2, hA2]; simp),
            if_neg (by rw [hb3, hlow]; simp),
            if_neg (by rw [hflen, hb4, hA4]; omega),
            if_pos (by rw [hlast, hdrop]; simp only [ne_eq, Option.some.injEq]; exact hcksum)]
          unfold mutated_field_error
          rw [if_neg (by omega), if_neg (by omega), if_pos rfl, if_neg (by simpa using hlow)]
      · -- length byte
        have hb4 : (A.set 4 b ++ [S]).getD 4 0 = b := hgeq (by omega)
        have hb0 : (A.set 4 b ++ [S]).getD 0 0 = A.getD 0 0 := hgne 0 (by omega) (by omega)
        have hb1 : (A.set 4 b ++ [S]).getD 1 0 = A.getD 1 0 := hgne 1 (by omega) (by omega)
        have hb2 : (A.set 4 b ++ [S]).getD 2 0 = A.getD 2 0 := hgne 2 (by omega) (by omega)
        have hb3 : (A.set 4 b ++ [S]).getD 3 0 = A.getD 3 0 := hgne 3 (by omega) (by omega)
        have hneL : b ≠ L := by rw [hA4] at hne; exact hne
        unfold validate_response_diag
        rw [if_neg hnotlt, if_neg (by rw [hb0, hb1, hA0, hA1]; simp),
          if_neg (by rw [hb2, hA2]; simp),
          if_neg (by rw [hb3, hA3, hcmd]; simp),
          if_pos (by rw [hflen, hb4]; omega)]
        rfl
      -- payload byte: the remaining case is handled below
    · have hb0 : (A.set i b ++ [S]).getD 0 0 = A.getD 0 0 := hgne 0 (by omega) (by omega)
      have hb1 : (A.set i b ++ [S]).getD 1 0 = A.getD 1 0 := hgne 1 (by omega) (by omega)
      have hb2 : (A.set i b ++ [S]).getD 2 0 = A.getD 2 0 := hgne 2 (by omega) (by omega)
      have hb3 : (A.set i b ++ [S]).getD 3 0 = A.getD 3 0 := hgne 3 (by omega) (by omega)
      have hb4 : (A.set i b ++ [S]).getD 4 0 = A.getD 4 0 := hgne 4 (by omega) (by omega)
      have hcksum : S ≠ (A.set i b).sum % 256 := by
        have := sum_set_mod_ne A i b (by omega) hb hold hne
        rw [hS]
        exact fun hcontra => this hcontra.symm
      unfold validate_response_diag
      rw [if_neg hnotlt, if_neg (by rw [hb0, hb1, hA0, hA1]; simp),
        if_neg (by rw [hb2, hA2]; simp),
        if_neg (by rw [hb3, hA3, hcmd]; simp),
        if_neg (by rw [hflen, hb4, hA4]; omega),
        if_pos (by rw [hlast, hdrop]; simp only [ne_eq, Option.some.injEq]; exact hcksum)]
      unfold mutated_field_error
      rw [if_neg (by omega), if_neg (by omega), if_neg (by omega), if_neg (by omega)]
  refine ⟨?_, hdiag⟩
  rw [validate_response_eq_diag, hdiag]
  rfl

theorem validate_rejects_mutation_witness :
    validate_response ((make_frame DEVICE_ADDR 0x01 [0xAA]).set 0 0x00) 0x01 = none ∧
    validate_response_diag ((make_frame DEVICE_ADDR 0x01 [0xAA]).set 0 0x00) 0x01 =
      Except.error (mutated_field_error 0 0x00 0x01) :=
  validate_rejects_mutation 0x01 [0xAA] 0 0x00 (by decide) (by decide) (by decide)
    (by decide) (by decide) (by decide)

/-- `C3` (counterexample): the source's `validate_response` does not report
field-specific error kinds — mutating a header byte and mutating the
address byte of the same validly-built frame produce the identical
undifferentiated failure value (`nullopt`), refuting the claim that the
failures are distinguishable rather than a single undifferentiated
failure. -/
theorem validate_mutation_undifferentiated :
    validate_response ((make_frame DEVICE_ADDR 0x01 [0xAA]).set 0 0x13) 0x01 = none ∧
    validate_response ((make_frame DEVICE_ADDR 0x01 [0xAA]).set 2 0x13) 0x01 = none ∧
    validate_response ((make_frame DEVICE_ADDR 0x01 [0xAA]).set 0 0x13) 0x01 =
      validate_response ((make_frame DEVICE_ADDR 0x01 [0xAA]).set 2 0x13) 0x01 := by
  decide

/-- Payload built by `move_to_absolute` (also opcode `0x04`), transcribing
lines 252–263 of the source: here — and only here — the coordinates are
clamped first (`x = std::min(x, static_cast<uint16_t>(4095))`), the button
byte is fixed `0x00` and the wheel byte fixed `0x00`. -/
def move_to_absolute_payload (x y : Nat) : List Nat :=
  [0x02, 0x00,
   min x 4095 &&& 0xFF, (min x 4095 >>> 8) &&& 0xFF,
   min y 4095 &&& 0xFF, (min y 4095 >>> 8) &&& 0xFF,
   0x00]

/-- Embeds `CH9329Controller::move_to_absolute`. -/
def move_to_absolute (x y : Nat) (raw : Option (List Nat)) : Bool :=
  cmd_success (send_command 0x04 (move_to_absolute_payload x y) raw)

theorem le16_bytes (x : Nat) (hx : x < 65536) :
    (x &&& 0xFF) + 256 * ((x >>> 8) &&& 0xFF) = x := by
  have h1 : x &&& 255 = x % 256 := by
    have := Nat.and_pow_two_sub_one_eq_mod x 8
    norm_num at this
    exact this
  have h2 : x >>> 8 = x / 256 := by
    rw [Nat.shiftRight_eq_div_pow]
  have h4 : x / 256 &&& 255 = x / 256 % 256 := by
    have := Nat.and_pow_two_sub_one_eq_mod (x / 256) 8
    norm_num at this
    exact this
  rw [h1, h2, h4]
  omega

/-- `C5` (counterexample): `send_ms_abs_data` does not clamp its
coordinates — at `x = 5000` the X bytes on the wire are
`[0x88, 0x13]` (5000 little-endian), not the bytes of the clamped value
`min 5000 4095 = 4095`, so the payload differs from the claimed
clamped layout. -/
theorem send_ms_abs_payload_not_clamped :
    send_ms_abs_payload MouseButton.NoButton 5000 0 0 ≠
      [0x02, pack_mouse_button MouseButton.NoButton,
       min 5000 4095 &&& 0xFF, (min 5000 4095 >>> 8) &&& 0xFF,
       min 0 4095 &&& 0xFF, (min 0 4095 >>> 8) &&& 0xFF,
       int8_byte 0] := by
  decide

/-- `C5` (amended): the absolute mouse report (opcode `0x04`) sent by
`send_ms_abs_data` is a 7-byte payload of fixed report id `0x02`, the
button bitmask, X and Y as little-endian 16-bit values taken verbatim from
the `uint16_t` arguments with no clamping, and the signed wheel byte; the
little-endian pair reconstructs the exact argument.  Clamping to 0–4095
happens only in the helper `move_to_absolute`, which sends the same layout
with no buttons and zero wheel. -/
theorem send_ms_abs_payload_layout (b : MouseButton) (x y : Nat) (wheel : Int)
    (hx : x < 65536) (hy : y < 65536) :
    send_ms_abs_payload b x y wheel =
      [0x02, pack_mouse_button b, x &&& 0xFF, (x >>> 8) &&& 0xFF,
       y &&& 0xFF, (y >>> 8) &&& 0xFF, int8_byte wheel] ∧
    (x &&& 0xFF) + 256 * ((x >>> 8) &&& 0xFF) = x ∧
    (y &&& 0xFF) + 256 * ((y >>> 8) &&& 0xFF) = y ∧
    (send_ms_abs_payload b x y wheel).length = 7 ∧
    move_to_absolute_payload x y =
      [0x02, 0x00, min x 4095 &&& 0xFF, (min x 4095 >>> 8) &&& 0xFF,
       min y 4095 &&& 0xFF, (min y 4095 >>> 8) &&& 0xFF, 0x00] :=
  ⟨rfl, le16_bytes x hx, le16_bytes y hy, rfl, rfl⟩

theorem send_ms_abs_payload_layout_witness :
    send_ms_abs_payload MouseButton.LeftButton 5000 4095 (-1) =
      [0x02, pack_mouse_button MouseButton.LeftButton, 5000 &&& 0xFF, (5000 >>> 8) &&& 0xFF,
       4095 &&& 0xFF, (4095 >>> 8) &&& 0xFF, int8_byte (-1)] ∧
    (5000 &&& 0xFF) + 256 * ((5000 >>> 8) &&& 0xFF) = 5000 :=
  ⟨(send_ms_abs_payload_layout MouseButton.LeftButton 5000 4095 (-1)
      (by decide) (by decide)).1,
   (send_ms_abs_payload_layout MouseButton.LeftButton 5000 4095 (-1)
      (by decide) (by decide)).2.1⟩

/-- Embeds `CH9329Controller::convert_screen_to_absolute`: each axis is
scaled by a `uint32` multiply-then-divide (exact, since a `uint16` input
times 4095 cannot overflow 32 bits), cast back to `uint16_t` (`% 65536`)
and only then clamped with `std::min(..., 4095)`. -/
def convert_screen_to_absolute (screen_x screen_y screen_width screen_height : Nat) :
    Nat × Nat :=
  let abs_x := min ((screen_x * 4095 / screen_width) % 65536) 4095
  let abs_y := min ((screen_y * 4095 / screen_height) % 65536) 4095
  (abs_x, abs_y)

/-- `C6` (counterexample): the coordinate mapper is not monotone — with a
1×1 screen, input x = 16 maps to 4095 but x = 17 maps to 4079, because the
scaled value is truncated to `uint16_t` before the clamp. -/
theorem convert_screen_not_monotone :
    (convert_screen_to_absolute 16 0 1 1).1 = 4095 ∧
    (convert_screen_to_absolute 17 0 1 1).1 = 4079 ∧
    ¬ ((convert_screen_to_absolute 16 0 1 1).1 ≤ (convert_screen_to_absolute 17 0 1 1).1) := by
  decide

/-- `C6` (amended): for screen dimensions at least 1, mapping `(0, 0)`
yields `(0, 0)` and every output coordinate is at most 4095; each output
coordinate is monotonically non-decreasing in the corresponding input as
long as the larger input's scaled value `x * 4095 / W` still fits in 16
bits (in particular for all inputs within the screen) — beyond that the
`uint16_t` truncation applied before the clamp can make the output
decrease. -/
theorem convert_screen_properties (W H x y x2 y2 : Nat) (hW : 1 ≤ W) (hH : 1 ≤ H) :
    convert_screen_to_absolute 0 0 W H = (0, 0) ∧
    (convert_screen_to_absolute x y W H).1 ≤ 4095 ∧
    (convert_screen_to_absolute x y W H).2 ≤ 4095 ∧
    (x ≤ x2 → x2 * 4095 < 65536 * W →
      (convert_screen_to_absolute x y W H).1 ≤ (convert_screen_to_absolute x2 y W H).1) ∧
    (y ≤ y2 → y2 * 4095 < 65536 * H →
      (convert_screen_to_absolute x y W H).2 ≤ (convert_screen_to_absolute x y2 W H).2) := by
  refine ⟨?_, ?_, ?_, ?_, ?_⟩
  · unfold convert_screen_to_absolute
    simp
  · exact min_le_right _ _
  · exact min_le_right _ _
  · intro hle hbound
    have hq2 : x2 * 4095 / W < 65536 := (Nat.div_lt_iff_lt_mul (by omega)).2 (by omega)
    have hq1 : x * 4095 / W ≤ x2 * 4095 / W :=
      Nat.div_le_div_right (Nat.mul_le_mul_right _ hle)
    unfold convert_screen_to_absolute
    dsimp only
    rw [Nat.mod_eq_of_lt (by omega), Nat.mod_eq_of_lt hq2]
    exact min_le_min hq1 le_rfl
  · intro hle hbound
    have hq2 : y2 * 4095 / H < 65536 := (Nat.div_lt_iff_lt_mul (by omega)).2 (by omega)
    have hq1 : y * 4095 / H ≤ y2 * 4095 / H :=
      Nat.div_le_div_right (Nat.mul_le_mul_right _ hle)
    unfold convert_screen_to_absolute
    dsimp only
    rw [Nat.mod_eq_of_lt (by omega), Nat.mod_eq_of_lt hq2]
    exact min_le_min hq1 le_rfl

theorem convert_screen_properties_witness :
    convert_screen_to_absolute 0 0 1920 1080 = (0, 0) ∧
    (convert_screen_to_absolute 959 1 1920 1080).1 ≤
      (convert_screen_to_absolute 1919 1 1920 1080).1 :=
  ⟨(convert_screen_properties 1920 1080 959 1 1919 1 (by decide) (by decide)).1,
   (convert_screen_properties 1920 1080 959 1 1919 1 (by decide) (by decide)).2.2.2.1
     (by decide) (by decide)⟩

end CH9329
